import Mathlib

/-!
# Verification of the roadrunner metrics plugin RPC layer

Shallow embedding of the metrics plugin (package `metrics`): the registry of
declared collectors (`Plugin.collectors`, a map from string key to
`*collector`), the key-resolution scheme (`collectorKey`, `rpc.collectorExists`)
and the RPC mutation surface (`rpc.Add`, `rpc.Sub`, `rpc.Set`, `rpc.Observe`,
`rpc.Declare`, `rpc.Unregister`) from `rpc.go`, the current generation that
carries a `Namespace` field on `Metric`.

Modelling conventions:
* `float64` metric values are modelled as `ℚ`; the operations involved
  (add, sub, set, observe-append) are exact on the inputs the theorems use.
* The `sync.Map` of collectors is modelled as an association list with
  first-match lookup; `Store` replaces in place or appends.
* Go mutates collectors through the stored pointer.  The model instead
  returns the key under which the resolver found the collector and writes the
  updated collector back at that key.
* The prometheus client library (an external dependency) is modelled at its
  documented contract: `Counter.Add` panics when the value is negative,
  `GetMetricWithLabelValues` errors when the number of label values differs
  from the declared label cardinality and otherwise creates the addressed
  child metric on first use.  A scalar `Summary` has exactly the method set of
  the `prometheus.Histogram` interface (`Metric`, `Collector`,
  `Observe(float64)`), so in a Go type switch it is captured by a
  `case prometheus.Histogram` arm; the embedding reproduces that.
* The prometheus registry (the exposition sink) is external state; its
  accept/reject answers enter the model as explicit boolean parameters.
-/

namespace Metrics

/-- Association-list lookup, first match wins (models `sync.Map.Load`). -/
def assocLoad {α β : Type} [DecidableEq α] : List (α × β) → α → Option β
  | [], _ => none
  | (k, v) :: rest, key => if k = key then some v else assocLoad rest key

/-- Association-list store: replace the first binding of `key`, or append a
new binding (models `sync.Map.Store`, and child-metric creation inside
prometheus vector collectors). -/
def assocStore {α β : Type} [DecidableEq α] : List (α × β) → α → β → List (α × β)
  | [], key, v => [(key, v)]
  | (k, w) :: rest, key, v =>
      if k = key then (key, v) :: rest else (k, w) :: assocStore rest key v

/-- `CollectorType` from `config.go`: a string type with four recognized
constants; `other` stands for any unrecognized string (the `default` arm of
the type switches in `Declare` / `getCollectors`). -/
inductive CollectorType : Type
  | histogram
  | gauge
  | counter
  | summary
  | other (s : String)
deriving DecidableEq

/-- The concrete prometheus collector instance held by a `collector` handle,
tagged the way the Go type switches distinguish them: scalar
counter/gauge hold one value, scalar histogram/summary hold the list of
observed samples, and the four `*...Vec` types hold the declared label
cardinality plus the children created so far, addressed by label-value
tuples. -/
inductive PromCol : Type
  | counter (value : ℚ)
  | counterVec (card : ℕ) (children : List (List String × ℚ))
  | gauge (value : ℚ)
  | gaugeVec (card : ℕ) (children : List (List String × ℚ))
  | histogram (samples : List ℚ)
  | histogramVec (card : ℕ) (children : List (List String × List ℚ))
  | summary (samples : List ℚ)
  | summaryVec (card : ℕ) (children : List (List String × List ℚ))
deriving DecidableEq

/-- `collector` from the plugin source: the stored handle, a prometheus
collector plus the `registered` flag. -/
structure collector : Type where
  col : PromCol
  registered : Bool
deriving DecidableEq

/-- The `Plugin.collectors` map: resolved key → collector handle. -/
abbrev Collectors : Type := List (String × collector)

/-- `collectorKey` from the plugin source: the composite key. -/
def collectorKey (name ns : String) : String :=
  name ++ "@" ++ ns

/-- `Metric` from `rpc.go` (current generation): name, namespace, value and
label values. -/
structure Metric : Type where
  name : String
  ns : String
  value : ℚ
  labels : List String
deriving DecidableEq

/-- `NamedCollector` from `config.go`: name plus the embedded `Collector`
declaration fields used by `Declare` (objectives and buckets only shape the
underlying prometheus options and do not influence the registry logic). -/
structure NamedCollector : Type where
  name : String
  ns : String
  subsystem : String
  help : String
  type : CollectorType
  labels : List String
  buckets : List ℚ
deriving DecidableEq

/-- Error returns of the RPC methods, one constructor per distinct error
path in `rpc.go`:
* `undefinedCollector` — "undefined collector ..." (resolver miss),
* `requiredLabels` — "required labels for collector ..." (`len(m.Labels) == 0`
  on a vector collector),
* `labelCardinality` — the error propagated from
  `GetMetricWithLabelValues` when the label-value count differs from the
  declared cardinality,
* `unsupportedOp` — "collector ... does not support method ..." (the
  `default` arm of a mutation's type switch),
* `alreadyExists` — "tried to register existing collector ..." (`Declare`),
* `registrationFailed` — the error propagated from `p.Register` when the
  prometheus registry rejects the new collector (`Declare`),
* `unknownCollectorType` — "unknown collector type ..." (`Declare`). -/
inductive RpcErr : Type
  | undefinedCollector
  | requiredLabels
  | labelCardinality
  | unsupportedOp
  | alreadyExists
  | registrationFailed
  | unknownCollectorType
deriving DecidableEq

/-- Result of one RPC call: `ok ack m` models a `nil` error return with the
reply flag `*ok` left at `ack` and registry state `m`; `err e m` models a
non-nil error return; `panicked m` models a panic escaping the call (raised
inside the prometheus client, e.g. `Counter.Add` on a negative value). -/
inductive Outcome : Type
  | ok (ack : Bool) (m : Collectors)
  | err (e : RpcErr) (m : Collectors)
  | panicked (m : Collectors)
deriving DecidableEq

/-- `true` exactly on the `err` constructor: the call returned a non-nil
error to the caller. -/
def Outcome.returnsErr : Outcome → Bool
  | .err _ _ => true
  | _ => false

namespace rpc

/-- `rpc.collectorExists` from `rpc.go`, key-tracking form: look the bare
`name` up first; on a miss, look the composite `collectorKey name ns` up.
The Go function returns the found `*collector`; since the model replaces
pointer mutation by a write-back, this form also reports the key under
which the collector was found. -/
def collectorExistsK (m : Collectors) (name ns : String) :
    Option (String × collector) :=
  match assocLoad m name with
  | some c => some (name, c)
  | none =>
      match assocLoad m (collectorKey name ns) with
      | some c => some (collectorKey name ns, c)
      | none => none

/-- `rpc.collectorExists` from `rpc.go`: the resolved collector handle,
`none` for the `(nil, false)` return. -/
def collectorExists (m : Collectors) (name ns : String) : Option collector :=
  (collectorExistsK m name ns).map Prod.snd

/-- `rpc.Add` from `rpc.go`.  Type-switch arms in source order: scalar
`prometheus.Gauge`, `*prometheus.GaugeVec`, `prometheus.Counter`,
`*prometheus.CounterVec`, then the unsupported default.  The counter arms
call `prometheus.Counter.Add`, which panics when the value is negative; in
the vector arm `GetMetricWithLabelValues` has already created the addressed
child by the time the panic is raised. -/
def Add (m : Collectors) (mt : Metric) : Outcome :=
  match collectorExistsK m mt.name mt.ns with
  | none => .err .undefinedCollector m
  | some (key, c) =>
      match c.col with
      | .gauge v =>
          .ok true (assocStore m key ⟨.gauge (v + mt.value), c.registered⟩)
      | .gaugeVec card ch =>
          if mt.labels = [] then .err .requiredLabels m
          else if mt.labels.length ≠ card then .err .labelCardinality m
          else
            let cur := (assocLoad ch mt.labels).getD 0
            .ok true (assocStore m key
              ⟨.gaugeVec card (assocStore ch mt.labels (cur + mt.value)),
               c.registered⟩)
      | .counter v =>
          if mt.value < 0 then .panicked m
          else .ok true (assocStore m key ⟨.counter (v + mt.value), c.registered⟩)
      | .counterVec card ch =>
          if mt.labels = [] then .err .requiredLabels m
          else if mt.labels.length ≠ card then .err .labelCardinality m
          else
            let cur := (assocLoad ch mt.labels).getD 0
            if mt.value < 0 then
              .panicked (assocStore m key
                ⟨.counterVec card (assocStore ch mt.labels cur), c.registered⟩)
            else
              .ok true (assocStore m key
                ⟨.counterVec card (assocStore ch mt.labels (cur + mt.value)),
                 c.registered⟩)
      | _ => .err .unsupportedOp m

/-- `rpc.Sub` from `rpc.go`: gauge and gauge-vector only. -/
def Sub (m : Collectors) (mt : Metric) : Outcome :=
  match collectorExistsK m mt.name mt.ns with
  | none => .err .undefinedCollector m
  | some (key, c) =>
      match c.col with
      | .gauge v =>
          .ok true (assocStore m key ⟨.gauge (v - mt.value), c.registered⟩)
      | .gaugeVec card ch =>
          if mt.labels = [] then .err .requiredLabels m
          else if mt.labels.length ≠ card then .err .labelCardinality m
          else
            let cur := (assocLoad ch mt.labels).getD 0
            .ok true (assocStore m key
              ⟨.gaugeVec card (assocStore ch mt.labels (cur - mt.value)),
               c.registered⟩)
      | _ => .err .unsupportedOp m

/-- `rpc.Set` from `rpc.go`: gauge and gauge-vector only. -/
def Set (m : Collectors) (mt : Metric) : Outcome :=
  match collectorExistsK m mt.name mt.ns with
  | none => .err .undefinedCollector m
  | some (key, c) =>
      match c.col with
      | .gauge _ =>
          .ok true (assocStore m key ⟨.gauge mt.value, c.registered⟩)
      | .gaugeVec card ch =>
          if mt.labels = [] then .err .requiredLabels m
          else if mt.labels.length ≠ card then .err .labelCardinality m
          else
            .ok true (assocStore m key
              ⟨.gaugeVec card (assocStore ch mt.labels mt.value), c.registered⟩)
      | _ => .err .unsupportedOp m

/-- `rpc.Observe` from `rpc.go`.  Type-switch arms in source order:
`*prometheus.SummaryVec`, `prometheus.Histogram`, `*prometheus.HistogramVec`,
default.  `case prometheus.Histogram:` is an interface case; both a scalar
histogram and a scalar summary implement that interface (identical method
sets), so both scalar shapes are observed by that arm. -/
def Observe (m : Collectors) (mt : Metric) : Outcome :=
  match collectorExistsK m mt.name mt.ns with
  | none => .err .undefinedCollector m
  | some (key, c) =>
      match c.col with
      | .summaryVec card ch =>
          if mt.labels = [] then .err .requiredLabels m
          else if mt.labels.length ≠ card then .err .labelCardinality m
          else
            let cur := (assocLoad ch mt.labels).getD []
            .ok true (assocStore m key
              ⟨.summaryVec card (assocStore ch mt.labels (cur ++ [mt.value])),
               c.registered⟩)
      | .histogram samples =>
          .ok true (assocStore m key ⟨.histogram (samples ++ [mt.value]), c.registered⟩)
      | .summary samples =>
          .ok true (assocStore m key ⟨.summary (samples ++ [mt.value]), c.registered⟩)
      | .histogramVec card ch =>
          if mt.labels = [] then .err .requiredLabels m
          else if mt.labels.length ≠ card then .err .labelCardinality m
          else
            let cur := (assocLoad ch mt.labels).getD []
            .ok true (assocStore m key
              ⟨.histogramVec card (assocStore ch mt.labels (cur ++ [mt.value])),
               c.registered⟩)
      | _ => .err .unsupportedOp m

/-- The collector-factory switch inside `rpc.Declare` (`switch nc.Type`),
fresh prometheus collector by type and shape; `none` for the `default` arm
(unknown collector type). -/
def makeCollector (nc : NamedCollector) : Option PromCol :=
  match nc.type with
  | .histogram =>
      if nc.labels.length ≠ 0 then some (.histogramVec nc.labels.length [])
      else some (.histogram [])
  | .gauge =>
      if nc.labels.length ≠ 0 then some (.gaugeVec nc.labels.length [])
      else some (.gauge 0)
  | .counter =>
      if nc.labels.length ≠ 0 then some (.counterVec nc.labels.length [])
      else some (.counter 0)
  | .summary =>
      if nc.labels.length ≠ 0 then some (.summaryVec nc.labels.length [])
      else some (.summary [])
  | .other _ => none

/-- `rpc.Declare` from `rpc.go` (current generation, strict policy):
existence check through `collectorExists`, factory switch, registration with
the prometheus registry (`sinkAccepts` is that external call's answer), and
only then `Store` under the composite key with `registered = true`. -/
def Declare (m : Collectors) (nc : NamedCollector) (sinkAccepts : Bool) : Outcome :=
  match collectorExistsK m nc.name nc.ns with
  | some _ => .err .alreadyExists m
  | none =>
      match makeCollector nc with
      | none => .err .unknownCollectorType m
      | some pc =>
          if sinkAccepts then
            .ok true (assocStore m (collectorKey nc.name nc.ns) ⟨pc, true⟩)
          else
            .err .registrationFailed m

/-- `rpc.Unregister` from `rpc.go` (current generation): resolve through
`collectorExists(name, "")`; on a miss return the "undefined collector"
error.  On a hit, call `p.registry.Unregister` (the external prometheus
registry; `sinkRemoved` is its answer) and return `nil` either way — with
`*ok` set to true only when the sink removed the collector.  The
`p.collectors` map is never written. -/
def Unregister (m : Collectors) (name : String) (sinkRemoved : Bool) : Outcome :=
  match collectorExistsK m name "" with
  | none => .err .undefinedCollector m
  | some _ => if sinkRemoved then .ok true m else .ok false m

end rpc

/-- The four mutation operations of the RPC surface. -/
inductive MutOp : Type
  | add
  | sub
  | set
  | observe
deriving DecidableEq

/-- Dispatch a mutation operation to its `rpc` method. -/
def dispatch : MutOp → Collectors → Metric → Outcome
  | .add => rpc.Add
  | .sub => rpc.Sub
  | .set => rpc.Set
  | .observe => rpc.Observe

/-- Modelled from the spec: the capability table of section 4.4 — which
(operation, collector type × shape) pairs are legal.  Counter: Add; Gauge:
Add, Sub, Set; Histogram and Summary: Observe; each for both scalar and
vector shapes. -/
def specSupports : MutOp → PromCol → Bool
  | .add, .counter _ => true
  | .add, .counterVec _ _ => true
  | .add, .gauge _ => true
  | .add, .gaugeVec _ _ => true
  | .sub, .gauge _ => true
  | .sub, .gaugeVec _ _ => true
  | .set, .gauge _ => true
  | .set, .gaugeVec _ _ => true
  | .observe, .histogram _ => true
  | .observe, .histogramVec _ _ => true
  | .observe, .summary _ => true
  | .observe, .summaryVec _ _ => true
  | _, _ => false

/-- Modelled from the spec: the `MissingLabels` failure category of
sections 4.4/7 ("vector operation without matching label values").  It
covers the code's two label-failure paths: the explicit empty-labels check
and the cardinality error from `GetMetricWithLabelValues`. -/
def specMissingLabels (e : RpcErr) : Prop :=
  e = .requiredLabels ∨ e = .labelCardinality

/-- Declared label cardinality of a vector collector, `none` on scalars. -/
def vecCard : PromCol → Option ℕ
  | .counterVec card _ => some card
  | .gaugeVec card _ => some card
  | .histogramVec card _ => some card
  | .summaryVec card _ => some card
  | _ => none

/-! ## Helper lemmas about the association-list registry -/

theorem assocLoad_assocStore_self {α β : Type} [DecidableEq α]
    (l : List (α × β)) (k : α) (v : β) :
    assocLoad (assocStore l k v) k = some v := by
  induction l with
  | nil => simp [assocStore, assocLoad]
  | cons hd tl ih =>
      obtain ⟨k', w⟩ := hd
      by_cases hk : k' = k
      · subst hk
        simp [assocStore, assocLoad]
      · simp [assocStore, assocLoad, hk, ih]

theorem assocLoad_assocStore_ne {α β : Type} [DecidableEq α]
    (l : List (α × β)) (k k' : α) (v : β) (h : k ≠ k') :
    assocLoad (assocStore l k v) k' = assocLoad l k' := by
  induction l with
  | nil => simp [assocStore, assocLoad, h]
  | cons hd tl ih =>
      obtain ⟨k0, w⟩ := hd
      by_cases hk : k0 = k
      · subst hk
        simp [assocStore, assocLoad, h]
      · simp [assocStore, assocLoad, hk, ih]

theorem assocStore_assocStore {α β : Type} [DecidableEq α]
    (l : List (α × β)) (k : α) (a b : β) :
    assocStore (assocStore l k a) k b = assocStore l k b := by
  induction l with
  | nil => simp [assocStore]
  | cons hd tl ih =>
      obtain ⟨k0, w⟩ := hd
      by_cases hk : k0 = k
      · subst hk
        simp [assocStore]
      · simp [assocStore, hk, ih]

/-- The composite key is a strict extension of the bare name, hence never
equal to it. -/
theorem collectorKey_ne (name ns : String) : collectorKey name ns ≠ name := by
  intro h
  have hlen := congrArg String.length h
  have h1 : "@".length = 1 := rfl
  simp only [collectorKey, String.length_append, h1] at hlen
  omega

/-- Resolution is stable under writing back at the resolved key: after
updating the collector stored at that key, the resolver finds the update
under the same key. -/
theorem collectorExistsK_assocStore (m : Collectors) (name ns key : String)
    (c c' : collector) (h : rpc.collectorExistsK m name ns = some (key, c)) :
    rpc.collectorExistsK (assocStore m key c') name ns = some (key, c') := by
  unfold rpc.collectorExistsK at h ⊢
  cases hload : assocLoad m name with
  | some c0 =>
      rw [hload] at h
      obtain ⟨hkey, -⟩ := Prod.mk.injEq .. ▸ Option.some.injEq .. ▸ h
      subst hkey
      rw [assocLoad_assocStore_self]
  | none =>
      rw [hload] at h
      cases hcomp : assocLoad m (collectorKey name ns) with
      | none => rw [hcomp] at h; exact absurd h (by simp)
      | some c0 =>
          rw [hcomp] at h
          have hkey : key = collectorKey name ns := by
            have := h
            simp only [Option.some.injEq, Prod.mk.injEq] at this
            exact this.1.symm
          subst hkey
          rw [assocLoad_assocStore_ne _ _ _ _ (collectorKey_ne name ns),
            hload, assocLoad_assocStore_self]

/-- When the resolver hits, no mutation can report "undefined collector":
every arm of every mutation's type switch yields success, a panic, or one of
the other error kinds. -/
theorem dispatch_ne_undefined (op : MutOp) (m : Collectors) (mt : Metric)
    (key : String) (c : collector)
    (hk : rpc.collectorExistsK m mt.name mt.ns = some (key, c)) :
    ∀ mm, dispatch op m mt ≠ .err .undefinedCollector mm := by
  intro mm
  obtain ⟨col, reg⟩ := c
  cases op <;> cases col <;>
    simp only [dispatch, rpc.Add, rpc.Sub, rpc.Set, rpc.Observe, hk] <;>
    (try split_ifs) <;> simp

/-! ## Claims -/

/-- C1: For every mutation (Add, Sub, Set, Observe) and for Declare's
existence check, key resolution first looks the bare name up; on a hit that
handle is returned; otherwise the composite key from `(name, namespace)` is
looked up; the call reports the collector as not found only when both
lookups miss. -/
theorem c1_key_resolution (m : Collectors) (name ns : String) :
    (∀ c, assocLoad m name = some c → rpc.collectorExists m name ns = some c)
    ∧ (assocLoad m name = none →
        rpc.collectorExists m name ns = assocLoad m (collectorKey name ns))
    ∧ (rpc.collectorExists m name ns = none ↔
        assocLoad m name = none ∧ assocLoad m (collectorKey name ns) = none)
    ∧ (∀ (op : MutOp) (mt : Metric), mt.name = name → mt.ns = ns →
        (dispatch op m mt = .err .undefinedCollector m ↔
          rpc.collectorExists m name ns = none))
    ∧ (∀ (nc : NamedCollector) (b : Bool), nc.name = name → nc.ns = ns →
        (rpc.Declare m nc b = .err .alreadyExists m ↔
          rpc.collectorExists m name ns ≠ none)) := by
  refine ⟨?_, ?_, ?_, ?_, ?_⟩
  · intro c hc
    simp [rpc.collectorExists, rpc.collectorExistsK, hc]
  · intro hn
    simp only [rpc.collectorExists, rpc.collectorExistsK, hn]
    cases assocLoad m (collectorKey name ns) <;> simp
  · simp only [rpc.collectorExists, rpc.collectorExistsK]
    cases hb : assocLoad m name <;>
      cases hc : assocLoad m (collectorKey name ns) <;> simp
  · intro op mt hname hns
    subst hname; subst hns
    simp only [rpc.collectorExists]
    cases hk : rpc.collectorExistsK m mt.name mt.ns with
    | none =>
        simp only [Option.map_none', iff_true]
        cases op <;> simp [dispatch, rpc.Add, rpc.Sub, rpc.Set, rpc.Observe, hk]
    | some kc =>
        obtain ⟨key, c⟩ := kc
        simp only [Option.map_some']
        constructor
        · intro hcontra
          exact absurd hcontra (dispatch_ne_undefined op m mt key c hk m)
        · intro hnone
          exact absurd hnone (by simp)
  · intro nc b hname hns
    subst hname; subst hns
    simp only [rpc.collectorExists, rpc.Declare]
    cases hk : rpc.collectorExistsK m nc.name nc.ns with
    | none =>
        simp only [hk, Option.map_none', ne_eq, not_true_eq_false, iff_false]
        cases hmk : rpc.makeCollector nc with
        | none => simp [hmk]
        | some pc =>
            simp only [hmk]
            split_ifs <;> simp
    | some kc => simp [hk]

/-- Witness for C1 at a concrete registry: a bare-name entry hit by the
resolver. -/
theorem c1_key_resolution_witness :
    rpc.collectorExists [("x", ⟨.counter 0, true⟩)] "x" "n"
      = some ⟨.counter 0, true⟩ :=
  (c1_key_resolution [("x", ⟨.counter 0, true⟩)] "x" "n").1
    ⟨.counter 0, true⟩ (by decide)

/-- `collectorExistsK` misses exactly when both the bare-name lookup and the
composite-key lookup miss. -/
theorem collectorExistsK_eq_none (m : Collectors) (name ns : String) :
    rpc.collectorExistsK m name ns = none ↔
      assocLoad m name = none ∧ assocLoad m (collectorKey name ns) = none := by
  unfold rpc.collectorExistsK
  cases assocLoad m name <;> cases hc : assocLoad m (collectorKey name ns) <;> simp

/-- C2: Evaluates the code at the failing input.  `Declare(name="x",
type=counter, namespace="")` stores the handle under the composite key
`"x@"`; a subsequent `Unregister("x")` resolves it and returns success, yet
the registry state is unchanged, so `Add(name="x", value=1)` still resolves
the collector and succeeds — it does not return the not-found error the
claim requires. -/
theorem c2_unregister_leaves_entry :
    rpc.Declare [] ⟨"x", "", "", "", .counter, [], []⟩ true
      = .ok true [("x@", ⟨.counter 0, true⟩)]
    ∧ rpc.Unregister [("x@", ⟨.counter 0, true⟩)] "x" true
      = .ok true [("x@", ⟨.counter 0, true⟩)]
    ∧ rpc.Add [("x@", ⟨.counter 0, true⟩)] ⟨"x", "", 1, []⟩
      = .ok true [("x@", ⟨.counter 1, true⟩)]
    ∧ (rpc.Add [("x@", ⟨.counter 0, true⟩)] ⟨"x", "", 1, []⟩).returnsErr
      = false := by
  refine ⟨by decide, by decide, ?_, by decide⟩
  simp +decide [rpc.Add, rpc.collectorExistsK, collectorKey, assocLoad,
    assocStore]

/-- C3: The registry keeps at most one live entry per declared collector:
declaring a resolvable `(name, namespace)` always fails with the
already-exists error and changes nothing, and after a fresh Declare the
second identical Declare fails while exactly one of the two candidate keys
(bare name, composite key) is populated — the composite one. -/
theorem c3_single_entry (m : Collectors) (nc : NamedCollector) :
    (∀ c b, rpc.collectorExists m nc.name nc.ns = some c →
        rpc.Declare m nc b = .err .alreadyExists m)
    ∧ (rpc.collectorExists m nc.name nc.ns = none →
        ∀ pc, rpc.makeCollector nc = some pc →
          rpc.Declare m nc true
            = .ok true (assocStore m (collectorKey nc.name nc.ns) ⟨pc, true⟩)
          ∧ rpc.Declare (assocStore m (collectorKey nc.name nc.ns) ⟨pc, true⟩)
              nc true
            = .err .alreadyExists
                (assocStore m (collectorKey nc.name nc.ns) ⟨pc, true⟩)
          ∧ assocLoad (assocStore m (collectorKey nc.name nc.ns) ⟨pc, true⟩)
              nc.name = none
          ∧ assocLoad (assocStore m (collectorKey nc.name nc.ns) ⟨pc, true⟩)
              (collectorKey nc.name nc.ns) = some ⟨pc, true⟩) := by
  constructor
  · intro c b hc
    simp only [rpc.collectorExists] at hc
    cases hk : rpc.collectorExistsK m nc.name nc.ns with
    | none => rw [hk] at hc; exact absurd hc (by simp)
    | some kc => simp [rpc.Declare, hk]
  · intro hnone pc hpc
    simp only [rpc.collectorExists, Option.map_eq_none'] at hnone
    obtain ⟨hbare, hcomp⟩ := (collectorExistsK_eq_none m nc.name nc.ns).mp hnone
    have hne := collectorKey_ne nc.name nc.ns
    have hb2 : assocLoad
        (assocStore m (collectorKey nc.name nc.ns) ⟨pc, true⟩) nc.name = none := by
      rw [assocLoad_assocStore_ne _ _ _ _ hne, hbare]
    have hc2 : assocLoad
        (assocStore m (collectorKey nc.name nc.ns) ⟨pc, true⟩)
        (collectorKey nc.name nc.ns) = some ⟨pc, true⟩ :=
      assocLoad_assocStore_self ..
    refine ⟨?_, ?_, hb2, hc2⟩
    · simp [rpc.Declare, hnone, hpc]
    · have hk2 : rpc.collectorExistsK
          (assocStore m (collectorKey nc.name nc.ns) ⟨pc, true⟩)
          nc.name nc.ns
          = some (collectorKey nc.name nc.ns, ⟨pc, true⟩) := by
        unfold rpc.collectorExistsK
        rw [hb2, hc2]
      simp [rpc.Declare, hk2]

/-- Witness for C3: declaring `x` in namespace `n` twice on an initially
empty registry — the second call fails with the already-exists error and
the state keeps the single composite-key entry. -/
theorem c3_single_entry_witness :
    rpc.Declare (assocStore ([] : Collectors) (collectorKey "x" "n")
        ⟨.counter 0, true⟩) ⟨"x", "n", "", "", .counter, [], []⟩ true
      = .err .alreadyExists
          (assocStore ([] : Collectors) (collectorKey "x" "n")
            ⟨.counter 0, true⟩) :=
  ((c3_single_entry [] ⟨"x", "n", "", "", .counter, [], []⟩).2
    (by decide) (.counter 0) (by decide)).2.1

/-- C4: When the exposition sink (the prometheus registry) rejects the
registration of the freshly built collector, Declare surfaces the failure
and stores nothing: the registry state is returned unchanged and a mutation
on the same `(name, namespace)` still reports the collector undefined. -/
theorem c4_registration_failure (m : Collectors) (nc : NamedCollector)
    (pc : PromCol) (hnone : rpc.collectorExists m nc.name nc.ns = none)
    (hpc : rpc.makeCollector nc = some pc) :
    rpc.Declare m nc false = .err .registrationFailed m
    ∧ ∀ mt : Metric, mt.name = nc.name → mt.ns = nc.ns →
        rpc.Add m mt = .err .undefinedCollector m := by
  simp only [rpc.collectorExists, Option.map_eq_none'] at hnone
  constructor
  · simp [rpc.Declare, hnone, hpc]
  · intro mt hname hns
    simp [rpc.Add, hname, hns, hnone]

/-- Witness for C4: a rejected registration on an empty registry, followed
by an Add that still reports the collector undefined. -/
theorem c4_registration_failure_witness :
    rpc.Declare [] ⟨"x", "n", "", "", .gauge, [], []⟩ false
      = .err .registrationFailed []
    ∧ rpc.Add [] ⟨"x", "n", 1, []⟩ = .err .undefinedCollector [] :=
  ⟨(c4_registration_failure [] ⟨"x", "n", "", "", .gauge, [], []⟩ (.gauge 0)
      (by decide) (by decide)).1,
   (c4_registration_failure [] ⟨"x", "n", "", "", .gauge, [], []⟩ (.gauge 0)
      (by decide) (by decide)).2 ⟨"x", "n", 1, []⟩ rfl rfl⟩

/-- C5 counterexample: on a declared scalar Counter, `Add` with value `-1`
does not return an error to the caller — the call panics (inside the
prometheus counter, which rejects negative increments by panicking). -/
theorem c5_counter_negative_counterexample :
    rpc.Add [("c", ⟨.counter 0, true⟩)] ⟨"c", "", -1, []⟩
      = .panicked [("c", ⟨.counter 0, true⟩)]
    ∧ (rpc.Add [("c", ⟨.counter 0, true⟩)] ⟨"c", "", -1, []⟩).returnsErr
      = false := by
  constructor <;> decide

/-- C5 amended: an `Add` with a negative value on a declared Counter
collector (scalar or vector) panics instead of returning an error; the
counter's value is not changed (for a vector, the addressed child is merely
created at its current — default zero — value by the label lookup that
precedes the panic). -/
theorem c5_counter_negative_panics (m : Collectors) (mt : Metric)
    (hv : mt.value < 0) :
    (∀ key x r,
        rpc.collectorExistsK m mt.name mt.ns = some (key, ⟨.counter x, r⟩) →
        rpc.Add m mt = .panicked m)
    ∧ (∀ key card ch r,
        rpc.collectorExistsK m mt.name mt.ns
          = some (key, ⟨.counterVec card ch, r⟩) →
        mt.labels ≠ [] → mt.labels.length = card →
        rpc.Add m mt
          = .panicked (assocStore m key
              ⟨.counterVec card
                (assocStore ch mt.labels ((assocLoad ch mt.labels).getD 0)),
               r⟩)) := by
  constructor
  · intro key x r hk
    simp [rpc.Add, hk, hv]
  · intro key card ch r hk hlab hlen
    simp [rpc.Add, hk, hv, hlab, hlen]

/-- Witness for C5 (amended) at a concrete scalar counter. -/
theorem c5_counter_negative_panics_witness :
    rpc.Add [("c", ⟨.counter 7, true⟩)] ⟨"c", "", -2, []⟩
      = .panicked [("c", ⟨.counter 7, true⟩)] :=
  (c5_counter_negative_panics [("c", ⟨.counter 7, true⟩)] ⟨"c", "", -2, []⟩
      (by norm_num)).1 "c" 7 true (by decide)

/-- C6: `Observe` on a declared scalar Summary succeeds and appends the
sample.  (In the Go type switch the scalar summary is captured by the
`case prometheus.Histogram` arm, whose interface it implements.) -/
theorem c6_observe_scalar_summary (m : Collectors) (mt : Metric)
    (key : String) (samples : List ℚ) (r : Bool)
    (hk : rpc.collectorExistsK m mt.name mt.ns
      = some (key, ⟨.summary samples, r⟩)) :
    rpc.Observe m mt
      = .ok true (assocStore m key ⟨.summary (samples ++ [mt.value]), r⟩) := by
  simp [rpc.Observe, hk]

/-- Witness for C6 at a concrete scalar summary. -/
theorem c6_observe_scalar_summary_witness :
    rpc.Observe [("s", ⟨.summary [], true⟩)] ⟨"s", "", 2, []⟩
      = .ok true
          (assocStore [("s", ⟨.summary [], true⟩)] "s"
            ⟨.summary ([] ++ [2]), true⟩) :=
  c6_observe_scalar_summary [("s", ⟨.summary [], true⟩)] ⟨"s", "", 2, []⟩
    "s" [] true (by decide)

/-- C7: Every (operation, collector type/shape) pair outside the spec's
capability table fails with the unsupported-operation error and leaves the
registry unchanged; in particular `Add` on a declared scalar Histogram
fails that way while `Observe` on the same collector succeeds. -/
theorem c7_capability_table (m : Collectors) (mt : Metric) (key : String)
    (c : collector)
    (hk : rpc.collectorExistsK m mt.name mt.ns = some (key, c)) :
    (∀ op : MutOp, specSupports op c.col = false →
        dispatch op m mt = .err .unsupportedOp m)
    ∧ (∀ samples, c.col = .histogram samples →
        rpc.Add m mt = .err .unsupportedOp m
        ∧ rpc.Observe m mt
            = .ok true
                (assocStore m key
                  ⟨.histogram (samples ++ [mt.value]), c.registered⟩)) := by
  constructor
  · intro op hop
    obtain ⟨col, reg⟩ := c
    cases op <;> cases col <;>
      simp_all [specSupports, dispatch, rpc.Add, rpc.Sub, rpc.Set,
        rpc.Observe]
  · intro samples hcol
    constructor
    · simp [rpc.Add, hk, hcol]
    · simp [rpc.Observe, hk, hcol]

/-- Witness for C7 at a concrete scalar histogram: Add is unsupported,
Observe succeeds. -/
theorem c7_capability_table_witness :
    rpc.Add [("h", ⟨.histogram [], true⟩)] ⟨"h", "", 1, []⟩
      = .err .unsupportedOp [("h", ⟨.histogram [], true⟩)]
    ∧ rpc.Observe [("h", ⟨.histogram [], true⟩)] ⟨"h", "", 1, []⟩
        = .ok true
            (assocStore [("h", ⟨.histogram [], true⟩)] "h"
              ⟨.histogram ([] ++ [1]), true⟩) :=
  (c7_capability_table [("h", ⟨.histogram [], true⟩)] ⟨"h", "", 1, []⟩
    "h" ⟨.histogram [], true⟩ (by decide)).2 [] rfl

/-- C8: On a declared vector collector, any supported mutation with an
empty label-value list fails with the explicit required-labels error, and
one with a non-empty list of the wrong length fails with the cardinality
error propagated from the label lookup; both fall in the spec's
`MissingLabels` category and neither changes the registry. -/
theorem c8_vector_label_checks (m : Collectors) (mt : Metric) (key : String)
    (c : collector) (card : ℕ)
    (hk : rpc.collectorExistsK m mt.name mt.ns = some (key, c))
    (hcard : vecCard c.col = some card)
    (op : MutOp) (hop : specSupports op c.col = true) :
    (mt.labels = [] →
        dispatch op m mt = .err .requiredLabels m
        ∧ specMissingLabels .requiredLabels)
    ∧ (mt.labels ≠ [] → mt.labels.length ≠ card →
        dispatch op m mt = .err .labelCardinality m
        ∧ specMissingLabels .labelCardinality) := by
  obtain ⟨col, reg⟩ := c
  cases op <;> cases col <;>
    simp only [specSupports, reduceCtorEq] at hop <;>
    simp only [vecCard, Option.some.injEq, reduceCtorEq] at hcard <;>
    try subst hcard
  all_goals
    refine ⟨fun hlab => ⟨?_, Or.inl rfl⟩, fun hlab hlen => ⟨?_, Or.inr rfl⟩⟩
  all_goals
    simp [dispatch, rpc.Add, rpc.Sub, rpc.Set, rpc.Observe, hk, *]

/-- Witness for C8 at a concrete one-label gauge vector: `Add` with no
labels fails with the required-labels error; `Add` with two labels fails
with the cardinality error. -/
theorem c8_vector_label_checks_witness :
    (dispatch .add [("v", ⟨.gaugeVec 1 [], true⟩)] ⟨"v", "", 1, []⟩
        = .err .requiredLabels [("v", ⟨.gaugeVec 1 [], true⟩)]
      ∧ specMissingLabels .requiredLabels)
    ∧ (dispatch .add [("v", ⟨.gaugeVec 1 [], true⟩)] ⟨"v", "", 1, ["a", "b"]⟩
        = .err .labelCardinality [("v", ⟨.gaugeVec 1 [], true⟩)]
      ∧ specMissingLabels .labelCardinality) :=
  ⟨(c8_vector_label_checks [("v", ⟨.gaugeVec 1 [], true⟩)] ⟨"v", "", 1, []⟩
      "v" ⟨.gaugeVec 1 [], true⟩ 1 (by decide) rfl .add rfl).1 rfl,
   (c8_vector_label_checks [("v", ⟨.gaugeVec 1 [], true⟩)]
      ⟨"v", "", 1, ["a", "b"]⟩
      "v" ⟨.gaugeVec 1 [], true⟩ 1 (by decide) rfl .add rfl).2
      (by decide) (by decide)⟩

/-- C9: On a declared scalar Gauge, `Set` is idempotent — a second
identical `Set v` produces exactly the state of the first — and the
sequence `Set 10` then `Sub 4` leaves the gauge at 6. -/
theorem c9_gauge_set (m : Collectors) (name ns key : String) (x : ℚ)
    (r : Bool)
    (hk : rpc.collectorExistsK m name ns = some (key, ⟨.gauge x, r⟩))
    (v : ℚ) :
    rpc.Set m ⟨name, ns, v, []⟩ = .ok true (assocStore m key ⟨.gauge v, r⟩)
    ∧ rpc.Set (assocStore m key ⟨.gauge v, r⟩) ⟨name, ns, v, []⟩
        = .ok true (assocStore m key ⟨.gauge v, r⟩)
    ∧ rpc.Set m ⟨name, ns, 10, []⟩
        = .ok true (assocStore m key ⟨.gauge 10, r⟩)
    ∧ rpc.Sub (assocStore m key ⟨.gauge 10, r⟩) ⟨name, ns, 4, []⟩
        = .ok true (assocStore m key ⟨.gauge 6, r⟩) := by
  have hv := collectorExistsK_assocStore m name ns key _ ⟨.gauge v, r⟩ hk
  have h10 := collectorExistsK_assocStore m name ns key _ ⟨.gauge 10, r⟩ hk
  refine ⟨by simp [rpc.Set, hk], ?_, by simp [rpc.Set, hk], ?_⟩
  · simp [rpc.Set, hv, assocStore_assocStore]
  · simp only [rpc.Sub, h10, assocStore_assocStore]
    norm_num

/-- Witness for C9 at a concrete scalar gauge. -/
theorem c9_gauge_set_witness :
    rpc.Sub (assocStore [("g", ⟨.gauge 0, true⟩)] "g" ⟨.gauge 10, true⟩)
        ⟨"g", "", 4, []⟩
      = .ok true (assocStore [("g", ⟨.gauge 0, true⟩)] "g" ⟨.gauge 6, true⟩) :=
  (c9_gauge_set [("g", ⟨.gauge 0, true⟩)] "g" "" "g" 0 true (by decide)
    5).2.2.2

/-- C10: `Unregister` takes only a name and resolves with the empty
namespace, so a collector stored solely under the composite key of a
non-empty namespace can never be unregistered: the call fails with the
not-found error and the registry is unchanged; and any `Unregister` that
returns success found its collector under the bare name or under the
composite key with empty namespace. -/
theorem c10_unregister_namespaced (m : Collectors) (name ns : String)
    (_hns : ns ≠ "")
    (hbare : assocLoad m name = none)
    (hempty : assocLoad m (collectorKey name "") = none)
    (_hcomp : (assocLoad m (collectorKey name ns)).isSome = true) (b : Bool) :
    rpc.Unregister m name b = .err .undefinedCollector m
    ∧ ∀ (m2 : Collectors) (b2 a : Bool) (mm : Collectors),
        rpc.Unregister m2 name b2 = .ok a mm →
        ((assocLoad m2 name).isSome
          ∨ (assocLoad m2 (collectorKey name "")).isSome) := by
  constructor
  · simp [rpc.Unregister, rpc.collectorExistsK, hbare, hempty]
  · intro m2 b2 a mm hok
    cases hl : assocLoad m2 name with
    | some c => exact Or.inl (by simp [hl])
    | none =>
        cases hc : assocLoad m2 (collectorKey name "") with
        | some c => exact Or.inr (by simp [hc])
        | none =>
            rw [rpc.Unregister,
              (collectorExistsK_eq_none m2 name "").mpr ⟨hl, hc⟩] at hok
            exact absurd hok (by simp)

/-- Witness for C10: a collector declared in namespace `n`, stored under
`"x@n"`, is unreachable for `Unregister("x")`. -/
theorem c10_unregister_namespaced_witness :
    rpc.Unregister [("x@n", ⟨.counter 0, true⟩)] "x" true
      = .err .undefinedCollector [("x@n", ⟨.counter 0, true⟩)] :=
  (c10_unregister_namespaced [("x@n", ⟨.counter 0, true⟩)] "x" "n"
    (by decide) (by decide) (by decide) (by decide) true).1

end Metrics
